import Mathlib

/-!
Verification development for the "GeoNumber Intel" single-page front-end
(src/src/App.tsx).  The file shallowly embeds the behavioral core of the
screen that the specification calls the Screen State Machine: input
validation via an external phone-number library, API-key resolution,
the primary/fallback model calls, JSON response parsing, the cosmetic
scan-progress interval, and the delayed success transition.

The source file contains three variants of the same screen.  The claims
cite the second variant (the one with manual-key entry and the model
fallback, `handleSearch` / `startScan` at source lines 126-237) and the
third variant (single model call, lines 522-593).  The two variants share
the same orchestration structure; the embedding below follows the second
variant (which has every feature the claims mention) and records the
third variant's differing constants separately.
-/

namespace Intel

/-! ### JavaScript string/option helpers

The source combines possibly-undefined strings with `||`.  An absent
(undefined) value is modelled as `none`; JavaScript treats both
`undefined` and the empty string as falsy. -/

/-- JS `a || b` for `a` a possibly-undefined string and `b` a plain
string default, e.g. `response.text || '\x7b\x7d'` and
`parsed.carrier || 'Unknown'`. -/
def jsOrDefault (a : Option String) (b : String) : String :=
  match a with
  | some s => if s = "" then b else s
  | none => b

/-- JS `a || b` where both operands are possibly-undefined strings; the
result keeps the last operand when every earlier one is falsy, exactly as
the `||` chain in `startScan` (source lines 162-167) does. -/
def jsOrOpt (a b : Option String) : Option String :=
  match a with
  | some s => if s = "" then b else some s
  | none => b

/-- JS `err.message || fallbackText` where `err.message` is a plain
string: the fallback is used only when the message is empty. -/
def jsMsgOr (msg fallback : String) : String :=
  if msg = "" then fallback else msg

/-- JS template interpolation of a possibly-undefined string
(`${parsed.country}` prints `undefined` when the field is absent). -/
def jsInterp (a : Option String) : String :=
  match a with
  | some s => s
  | none => "undefined"

/-- JS truthiness of a possibly-undefined string. -/
def jsTruthy (a : Option String) : Bool :=
  match a with
  | some s => s ≠ ""
  | none => false

/-! ### Credential environment and resolution (source lines 161-172) -/

/-- The environment-supplied credential sources read in `startScan`:
`process.env.GEMINI_API_KEY`, `process.env.USER_API_KEY`,
`process.env.API_KEY` and `import.meta.env?.VITE_GEMINI_API_KEY`.
`none` models an undefined variable. -/
structure KeyEnv where
  gemini : Option String
  user : Option String
  api : Option String
  vite : Option String
deriving DecidableEq, Repr

/-- Source lines 162-167:
`manualKey || process.env.GEMINI_API_KEY || process.env.USER_API_KEY ||
process.env.API_KEY || import.meta.env?.VITE_GEMINI_API_KEY`. -/
def resolveApiKey (manualKey : String) (env : KeyEnv) : Option String :=
  jsOrOpt (some manualKey) (jsOrOpt env.gemini (jsOrOpt env.user (jsOrOpt env.api env.vite)))

/-- Source line 169:
`!apiKey || apiKey === 'MY_GEMINI_API_KEY' || apiKey === ''`. -/
def apiKeyMissing (apiKey : Option String) : Bool :=
  !jsTruthy apiKey || apiKey == some "MY_GEMINI_API_KEY" || apiKey == some ""

/-- An environment with no credential variable defined at all. -/
def emptyKeyEnv : KeyEnv := ⟨none, none, none, none⟩

/-! ### User-facing message literals (transcribed from the source) -/

/-- Source line 135: message thrown when the parsed number is not valid. -/
def invalidNumberMsg : String :=
  "Nomor telepon tidak valid. Pastikan gunakan format internasional (misal: +62...)."

/-- Source line 141: fallback when the validation error has no message. -/
def processFailMsg : String := "Gagal memproses nomor."

/-- Source line 171: message thrown when no usable API key resolves. -/
def missingKeyMsg : String :=
  "API Key tidak terdeteksi secara otomatis. Silakan masukkan secara manual di bawah."

/-- Source line 234: fallback when the report request error has no message. -/
def reportFailMsg : String := "Gagal mendapatkan laporan intelijen."

/-- Message of the `SyntaxError` thrown by `JSON.parse` on malformed
input.  The host runtime supplies the exact wording; the claims only need
it to be a non-empty error message, modelled here by a fixed string. -/
def jsonSyntaxMsg : String := "SyntaxError: JSON parse failed"

/-! ### Timing and pacing constants -/

/-- Interval period of the progress simulator, second variant
(source line 158): 300 ms. -/
def scanIntervalMs : Nat := 300

/-- Interval period in the third variant (source line 554): 400 ms. -/
def scanIntervalMsV3 : Nat := 400

/-- Upper bound of one random progress increment, second variant
(source line 156): `Math.random() * 10` lies in `[0, 10)`. -/
def scanIncBound : ℚ := 10

/-- Upper bound of one random progress increment, third variant
(source line 552): `Math.random() * 15` lies in `[0, 15)`. -/
def scanIncBoundV3 : ℚ := 15

/-- Delay of the success `setTimeout`, second variant (source line 230). -/
def successPauseMs : Nat := 1500

/-- Delay of the success `setTimeout`, third variant (source line 586). -/
def successPauseMsV3 : Nat := 2000

/-! ### Prompt construction (source lines 181-194 and 204-217)

The primary ("flash") call and the fallback ("pro") call each build their
prompt from their own template literal in the source; the two templates
are transcribed separately below so that their equality is a statement
about the source, not an artifact of sharing one definition. -/

/-- The metadata of a successfully validated phone number, as read by the
prompt templates: `parsed.number`, `parsed.country` (possibly undefined)
and `parsed.carrier` (possibly undefined). -/
structure ParsedNumber where
  number : String
  country : Option String
  carrier : Option String
deriving DecidableEq, Repr

/-- Template literal of the primary model call (source lines 181-194). -/
def promptFlash (p : ParsedNumber) : String :=
  "Analyze this phone number metadata:\n            Number: " ++ p.number ++
  "\n            Country: " ++ jsInterp p.country ++
  "\n            Carrier: " ++ jsOrDefault p.carrier "Unknown" ++
  "\n            \n            Provide a technical intelligence report in Indonesian. " ++
  "\n            Return ONLY a JSON object with this structure:" ++
  "\n            \x7b" ++
  "\n              \"summary\": \"Short overview\"," ++
  "\n              \"regionDetails\": \"Specific details about the registration area\"," ++
  "\n              \"carrierInfo\": \"Information about the network provider\"," ++
  "\n              \"securityRisk\": \"Low\" | \"Medium\" | \"High\"," ++
  "\n              \"recommendations\": [\"tip 1\", \"tip 2\", \"tip 3\"]" ++
  "\n            \x7d"

/-- Template literal of the fallback model call (source lines 204-217). -/
def promptPro (p : ParsedNumber) : String :=
  "Analyze this phone number metadata:\n            Number: " ++ p.number ++
  "\n            Country: " ++ jsInterp p.country ++
  "\n            Carrier: " ++ jsOrDefault p.carrier "Unknown" ++
  "\n            \n            Provide a technical intelligence report in Indonesian. " ++
  "\n            Return ONLY a JSON object with this structure:" ++
  "\n            \x7b" ++
  "\n              \"summary\": \"Short overview\"," ++
  "\n              \"regionDetails\": \"Specific details about the registration area\"," ++
  "\n              \"carrierInfo\": \"Information about the network provider\"," ++
  "\n              \"securityRisk\": \"Low\" | \"Medium\" | \"High\"," ++
  "\n              \"recommendations\": [\"tip 1\", \"tip 2\", \"tip 3\"]" ++
  "\n            \x7d"

/-- Model identifier of the primary call (source line 180). -/
def flashModel : String := "gemini-3-flash-preview"

/-- Model identifier of the fallback call (source line 203). -/
def proModel : String := "gemini-3.1-pro-preview"

/-! ### JSON values and `JSON.parse`

Source line 224 runs the host's `JSON.parse` over the model's raw text.
`JsValue` models the parse result; `jsonParse` is a fueled
recursive-descent parser for the JSON fragment the screen exchanges:
literals, integer numbers, strings with the common escapes, arrays and
objects.  (Fractional and exponent number forms are rejected; the report
payloads the claims concern contain only strings and string arrays.) -/

inductive JsValue where
  | null : JsValue
  | bool : Bool → JsValue
  | num : Int → JsValue
  | str : String → JsValue
  | arr : List JsValue → JsValue
  | obj : List (String × JsValue) → JsValue

/-- The `{` character (written via its code point to keep brace pairing
out of character literals). -/
def lbrace : Char := Char.ofNat 123

/-- The `}` character. -/
def rbrace : Char := Char.ofNat 125

/-- The `"` character. -/
def dquote : Char := Char.ofNat 34

/-- The `\` character. -/
def bslash : Char := Char.ofNat 92

/-- Drop leading JSON whitespace. -/
def skipWs : List Char → List Char
  | c :: cs => if c = ' ' ∨ c = '\n' ∨ c = '\t' ∨ c = '\r' then skipWs cs else c :: cs
  | [] => []

/-- Parse the body of a JSON string literal (the opening quote already
consumed), returning the string and the rest of the input. -/
def parseStrBody : Nat → List Char → Option (String × List Char)
  | 0, _ => none
  | _ + 1, [] => none
  | fuel + 1, c :: cs =>
    if c = dquote then some ("", cs)
    else if c = bslash then
      match cs with
      | [] => none
      | d :: cs' =>
        let esc : Option Char :=
          if d = dquote then some dquote
          else if d = bslash then some bslash
          else if d = '/' then some '/'
          else if d = 'n' then some '\n'
          else if d = 't' then some '\t'
          else if d = 'r' then some '\r'
          else none
        match esc with
        | some e => (parseStrBody fuel cs').map (fun pr => (String.mk (e :: pr.1.data), pr.2))
        | none => none
    else (parseStrBody fuel cs).map (fun pr => (String.mk (c :: pr.1.data), pr.2))

/-- Split a leading run of decimal digits from the input. -/
def takeDigits : List Char → List Char × List Char
  | c :: cs =>
    if c.isDigit then
      let pr := takeDigits cs
      (c :: pr.1, pr.2)
    else ([], c :: cs)
  | [] => ([], [])

/-- Numeric value of a digit run. -/
def digitsToNat (ds : List Char) : Nat :=
  ds.foldl (fun acc c => acc * 10 + (c.toNat - 48)) 0

/-- Parse the comma-separated items of an array after its first item has
not yet been read; `pv` parses one value. -/
def parseArrItems (pv : List Char → Option (JsValue × List Char)) :
    Nat → List Char → Option (List JsValue × List Char)
  | 0, _ => none
  | fuel + 1, input =>
    match pv input with
    | none => none
    | some (v, rest) =>
      match skipWs rest with
      | c :: cs =>
        if c = ',' then
          (parseArrItems pv fuel cs).map (fun pr => (v :: pr.1, pr.2))
        else if c = ']' then some ([v], cs)
        else none
      | [] => none

/-- Parse the comma-separated members of an object after its opening
brace (at least one member present); `pv` parses one value. -/
def parseObjItems (pv : List Char → Option (JsValue × List Char)) :
    Nat → List Char → Option (List (String × JsValue) × List Char)
  | 0, _ => none
  | fuel + 1, input =>
    match skipWs input with
    | c :: cs =>
      if c = dquote then
        match parseStrBody (cs.length + 1) cs with
        | none => none
        | some (key, rest) =>
          match skipWs rest with
          | d :: ds =>
            if d = ':' then
              match pv ds with
              | none => none
              | some (v, rest') =>
                match skipWs rest' with
                | e :: es =>
                  if e = ',' then
                    (parseObjItems pv fuel es).map (fun pr => ((key, v) :: pr.1, pr.2))
                  else if e = rbrace then some ([(key, v)], es)
                  else none
                | [] => none
            else none
          | [] => none
      else none
    | [] => none

/-- Fueled JSON value parser. -/
def parseVal : Nat → List Char → Option (JsValue × List Char)
  | 0, _ => none
  | fuel + 1, input =>
    match skipWs input with
    | [] => none
    | c :: cs =>
      if c = dquote then
        (parseStrBody (cs.length + 1) cs).map (fun pr => (JsValue.str pr.1, pr.2))
      else if c = lbrace then
        match skipWs cs with
        | d :: ds =>
          if d = rbrace then some (JsValue.obj [], ds)
          else
            (parseObjItems (parseVal fuel) (fuel + 1) (d :: ds)).map
              (fun pr => (JsValue.obj pr.1, pr.2))
        | [] => none
      else if c = '[' then
        match skipWs cs with
        | d :: ds =>
          if d = ']' then some (JsValue.arr [], ds)
          else
            (parseArrItems (parseVal fuel) (fuel + 1) (d :: ds)).map
              (fun pr => (JsValue.arr pr.1, pr.2))
        | [] => none
      else if c = 't' then
        match cs with
        | 'r' :: 'u' :: 'e' :: rest => some (JsValue.bool true, rest)
        | _ => none
      else if c = 'f' then
        match cs with
        | 'a' :: 'l' :: 's' :: 'e' :: rest => some (JsValue.bool false, rest)
        | _ => none
      else if c = 'n' then
        match cs with
        | 'u' :: 'l' :: 'l' :: rest => some (JsValue.null, rest)
        | _ => none
      else if c = '-' then
        match takeDigits cs with
        | ([], _) => none
        | (ds, rest) =>
          match rest with
          | r :: _ => if r = '.' ∨ r = 'e' ∨ r = 'E' then none
                      else some (JsValue.num (-(digitsToNat ds : Int)), rest)
          | [] => some (JsValue.num (-(digitsToNat ds : Int)), rest)
      else if c.isDigit then
        match takeDigits (c :: cs) with
        | ([], _) => none
        | (ds, rest) =>
          match rest with
          | r :: _ => if r = '.' ∨ r = 'e' ∨ r = 'E' then none
                      else some (JsValue.num (digitsToNat ds : Int), rest)
          | [] => some (JsValue.num (digitsToNat ds : Int), rest)
      else none

/-- `JSON.parse`: the whole input must be one JSON value (plus trailing
whitespace); anything else throws, modelled as `none`. -/
def jsonParse (s : String) : Option JsValue :=
  match parseVal (s.length + 1) s.data with
  | some (v, rest) =>
    match skipWs rest with
    | [] => some v
    | _ => none
  | none => none

/-- Property access `v.field` on a parse result, used to state which
required `IntelReport` fields a parsed object carries. -/
def getField (v : JsValue) (key : String) : Option JsValue :=
  match v with
  | JsValue.obj fields => (fields.find? (fun f => f.1 = key)).map (fun f => f.2)
  | _ => none

/-- The five required `IntelReport` fields (spec §3; source interface
`IntelReport`, lines 506-512).  This predicate follows the
specification's words — the source performs no such check — and exists to
compare the spec's required shape with what the code actually accepts. -/
def hasIntelReportShape (v : JsValue) : Bool :=
  (getField v "summary").isSome && (getField v "regionDetails").isSome &&
  (getField v "carrierInfo").isSome && (getField v "securityRisk").isSome &&
  (getField v "recommendations").isSome

/-! ### The scan-progress simulator tick (source lines 150-158 / 546-554)

Each interval tick runs
`setScanProgress(prev => prev >= 100 ? (clearInterval(interval), 100) : prev + Math.random() * B)`
with `B = 10` in the second variant and `B = 15` in the third.  The
random draw is an input `r` with `0 ≤ r < B`.  The returned `Bool` is
whether the interval stays scheduled (`false` once the updater has
called `clearInterval`). -/

/-- One tick of the progress updater: new progress value and whether the
interval remains active.  The body is identical in both variants; only
the random bound differs. -/
def scanTick (r prev : ℚ) : ℚ × Bool :=
  if prev ≥ 100 then (100, false) else (prev + r, true)

/-- Successive progress values produced from start value `p` by the given
random increments. -/
def progressFrom (p : ℚ) : List ℚ → List ℚ
  | [] => []
  | r :: rs =>
    let q := (scanTick r p).1
    q :: progressFrom q rs

/-- Progress values of one Scanning phase: `startScan` resets the value
to `0` (source line 543 / 147) and each tick applies `scanTick`. -/
def progressTrace (incs : List ℚ) : List ℚ :=
  progressFrom 0 incs

/-! ### The screen state machine

The component state of the second variant (source lines 117-124), the
pending host-scheduled work (`setInterval`, the awaited network call,
the success `setTimeout`), and the event-loop step relation.  Times are
in milliseconds.  The `gen`, `fired` and `networkCalls` fields are ghost
bookkeeping used only to state the claims (which session an asynchronous
completion belongs to, how many ticks an interval has delivered, and how
many outbound model calls occurred); the handlers never branch on them. -/

/-- The response object of a model call: only its `text` field is read
(`response.text`, possibly undefined). -/
structure GenResponse where
  text : Option String
deriving DecidableEq, Repr

/-- Outcome of one awaited model call: resolution with a response, or
rejection with an error message. -/
inductive NetOutcome where
  | ok : GenResponse → NetOutcome
  | fail : String → NetOutcome
deriving DecidableEq, Repr

/-- Outcome of `parsePhoneNumberWithError` plus `parsed.isValid()`
(source lines 133-134): the external library either throws with a
message or yields a parsed number together with its validity flag. -/
inductive LibParseResult where
  | threw : String → LibParseResult
  | parsed : ParsedNumber → Bool → LibParseResult
deriving DecidableEq, Repr

/-- The React component state driving the screen (source lines 117-124). -/
structure AppState where
  isScanning : Bool
  error : Option String
  report : Option JsValue
  parsedData : Option ParsedNumber
  scanProgress : ℚ
  manualKey : String
  showKeyInput : Bool

/-- A scheduled `setInterval` from `startScan` (source line 150):
creation time, ghost count of delivered ticks and ghost session number. -/
structure IntervalRec where
  id : Nat
  start : Nat
  fired : Nat
  gen : Nat

/-- An in-flight awaited model request (ghost session number attached). -/
structure NetRec where
  id : Nat
  gen : Nat

/-- A scheduled success `setTimeout` (source lines 226-230): scheduling
time, the parsed result captured by its closure, ghost session number. -/
structure TimeoutRec where
  id : Nat
  schedAt : Nat
  payload : JsValue
  gen : Nat

/-- The whole system: component state plus host-scheduled pending work.
`now` is the time of the last processed event, `curGen` the ghost number
of the most recent submission. -/
structure Sys where
  app : AppState
  now : Nat
  nextId : Nat
  intervals : List IntervalRec
  pendingNet : List NetRec
  pendingTimeouts : List TimeoutRec
  curGen : Nat
  networkCalls : Nat

/-- Initial state: `useState` initializers (source lines 117-124). -/
def initSys : Sys :=
  { app := { isScanning := false, error := none, report := none, parsedData := none,
             scanProgress := 0, manualKey := "", showKeyInput := false },
    now := 0, nextId := 0, intervals := [], pendingNet := [], pendingTimeouts := [],
    curGen := 0, networkCalls := 0 }

/-- Events delivered by the browser event loop.  `submit` carries the
external library's verdict on the current input; `tick` carries an
interval's random draw; `netRet` carries the primary call's outcome and
the fallback's outcome (the fallback is only consulted when the primary
failed); `fireTimeout` delivers a scheduled success timeout. -/
inductive Ev where
  | submit : Nat → LibParseResult → Ev
  | setKey : Nat → String → Ev
  | tick : Nat → Nat → ℚ → Ev
  | netRet : Nat → Nat → NetOutcome → NetOutcome → Ev
  | fireTimeout : Nat → Nat → Ev

/-- Derived phase the presentation layer renders (spec §4.4): the
scanning panel when `isScanning`, the results panel when a report is
set, the error banner when an error is set, the idle panel otherwise
(source lines 359-447: `isScanning ? ... : report ? ... : ...` plus the
`error &&` banner).  Validation is synchronous inside the submit
handler, so the Validating phase has no observable state of its own. -/
inductive Phase where
  | Idle | Validating | Scanning | Success | Failure
deriving DecidableEq, Repr

/-- Phase derived from component state. -/
def phase (a : AppState) : Phase :=
  if a.isScanning then Phase.Scanning
  else if a.report.isSome then Phase.Success
  else if a.error.isSome then Phase.Failure
  else Phase.Idle

/-- The submit button's `disabled` attribute
(source line 293: `disabled={isScanning || !phoneNumber}`). -/
def submitDisabled (a : AppState) (phoneNumber : String) : Bool :=
  a.isScanning || phoneNumber == ""

/-- `handleSearch` (source lines 126-143) followed by the synchronous
prefix of `startScan` (lines 145-172): clear error/report/parsedData,
consult the validator, and on success enter Scanning, start the
interval, resolve the credential and either fail with the missing-key
message (revealing the manual-key field) or issue the primary model
call. -/
def stepSubmit (env : KeyEnv) (s : Sys) (t : Nat) (v : LibParseResult) : Option Sys :=
  if t < s.now then none else
  let gen := s.curGen + 1
  let a0 := { s.app with error := none, report := none, parsedData := none }
  match v with
  | LibParseResult.threw msg =>
    some { s with
      now := t, curGen := gen,
      app := { a0 with error := some (jsMsgOr msg processFailMsg) } }
  | LibParseResult.parsed p valid =>
    if valid then
      let a1 := { a0 with parsedData := some p, isScanning := true, scanProgress := 0 }
      let iv : IntervalRec := { id := s.nextId, start := t, fired := 0, gen := gen }
      let key := resolveApiKey a1.manualKey env
      if apiKeyMissing key then
        some { s with
          now := t, curGen := gen, nextId := s.nextId + 1,
          intervals := s.intervals ++ [iv],
          app := { a1 with
            showKeyInput := true, error := some missingKeyMsg, isScanning := false } }
      else
        some { s with
          now := t, curGen := gen, nextId := s.nextId + 2,
          intervals := s.intervals ++ [iv],
          pendingNet := s.pendingNet ++ [{ id := s.nextId + 1, gen := gen }],
          networkCalls := s.networkCalls + 1,
          app := a1 }
    else
      some { s with
        now := t, curGen := gen,
        app := { a0 with error := some (jsMsgOr invalidNumberMsg processFailMsg) } }

/-- The manual-key input's `onChange` handler (source line 322). -/
def stepSetKey (s : Sys) (t : Nat) (k : String) : Option Sys :=
  if t < s.now then none else
  some { s with now := t, app := { s.app with manualKey := k } }

/-- One interval tick.  Legal only for a scheduled interval, at its next
due time `start + 300·(fired+1)`, with a draw in `[0, 10)`.  Applies
`scanTick` to the shared progress value and unschedules the interval
when the updater called `clearInterval`. -/
def stepTick (s : Sys) (t : Nat) (id : Nat) (r : ℚ) : Option Sys :=
  if t < s.now then none else
  if ¬ (0 ≤ r ∧ r < scanIncBound) then none else
  match s.intervals.find? (fun iv => iv.id = id) with
  | none => none
  | some iv =>
    if t = iv.start + scanIntervalMs * (iv.fired + 1) then
      let pr := scanTick r s.app.scanProgress
      let intervals' :=
        if pr.2 then
          s.intervals.map (fun j => if j.id = id then { j with fired := j.fired + 1 } else j)
        else
          s.intervals.filter (fun j => j.id ≠ id)
      some { s with
        now := t, intervals := intervals',
        app := { s.app with scanProgress := pr.1 } }
    else none

/-- Resolution of the awaited model request: the continuation of
`startScan` after the `try`/`catch` around the two calls (source lines
178-236).  A primary failure makes the fallback call (one more outbound
call) whose outcome decides the session; a final failure stores the
error message and leaves Scanning (lines 232-235, without clearing the
interval); a final response has its text (defaulted to `\x7b\x7d` when
falsy) parsed by `JSON.parse`: a parse failure is caught by the same
`catch`, and a parse result schedules the 1500 ms success timeout with
the result in its closure (lines 224-230). -/
def stepNetRet (s : Sys) (t : Nat) (id : Nat) (flash pro : NetOutcome) : Option Sys :=
  if t < s.now then none else
  match s.pendingNet.find? (fun nr => nr.id = id) with
  | none => none
  | some nr =>
    let pending' := s.pendingNet.filter (fun j => j.id ≠ id)
    let finalAndCalls : NetOutcome × Nat :=
      match flash with
      | NetOutcome.ok resp => (NetOutcome.ok resp, 0)
      | NetOutcome.fail _ => (pro, 1)
    let calls' := s.networkCalls + finalAndCalls.2
    match finalAndCalls.1 with
    | NetOutcome.fail msg =>
      some { s with
        now := t, pendingNet := pending', networkCalls := calls',
        app := { s.app with
          error := some (jsMsgOr msg reportFailMsg), isScanning := false } }
    | NetOutcome.ok resp =>
      match jsonParse (jsOrDefault resp.text "\x7b\x7d") with
      | none =>
        some { s with
          now := t, pendingNet := pending', networkCalls := calls',
          app := { s.app with
            error := some (jsMsgOr jsonSyntaxMsg reportFailMsg), isScanning := false } }
      | some result =>
        some { s with
          now := t, pendingNet := pending', networkCalls := calls',
          nextId := s.nextId + 1,
          pendingTimeouts := s.pendingTimeouts ++
            [{ id := s.nextId, schedAt := t, payload := result, gen := nr.gen }] }

/-- Firing of a scheduled success timeout, exactly `successPauseMs`
after it was scheduled: `setReport(result); setIsScanning(false);
setScanProgress(100)` (source lines 226-230). -/
def stepFireTimeout (s : Sys) (t : Nat) (id : Nat) : Option Sys :=
  if t < s.now then none else
  match s.pendingTimeouts.find? (fun tr => tr.id = id) with
  | none => none
  | some tr =>
    if t = tr.schedAt + successPauseMs then
      some { s with
        now := t,
        pendingTimeouts := s.pendingTimeouts.filter (fun j => j.id ≠ id),
        app := { s.app with
          report := some tr.payload, isScanning := false, scanProgress := 100 } }
    else none

/-- The event-loop step relation; `none` marks an event the host could
not deliver (unknown id, wrong due time, time regression). -/
def step (env : KeyEnv) (s : Sys) : Ev → Option Sys
  | Ev.submit t v => stepSubmit env s t v
  | Ev.setKey t k => stepSetKey s t k
  | Ev.tick t id r => stepTick s t id r
  | Ev.netRet t id flash pro => stepNetRet s t id flash pro
  | Ev.fireTimeout t id => stepFireTimeout s t id

/-- Run a sequence of events from a state. -/
def run (env : KeyEnv) (s : Sys) (evs : List Ev) : Option Sys :=
  evs.foldlM (step env) s

/-! ### Shared concrete inputs for witnesses and counterexamples -/

/-- A credential environment whose `GEMINI_API_KEY` is set. -/
def demoEnv : KeyEnv := ⟨some "K", none, none, none⟩

/-- A validated number, as in the spec §8 scenario. -/
def demoNumber : ParsedNumber := ⟨"+6281234567890", some "ID", none⟩

/-- A second validated number, used for the superseding submission. -/
def demoNumber2 : ParsedNumber := ⟨"+15551234567", some "US", none⟩

/-- A state with one in-flight model request. -/
def demoPendingNetState : Sys :=
  { initSys with pendingNet := [{ id := 1, gen := 1 }] }

/-- A scanning state whose progress has overshot 100, with the interval
due for its fourth tick. -/
def demoOvershootState : Sys :=
  { initSys with
    intervals := [{ id := 0, start := 0, fired := 3, gen := 1 }],
    app := { initSys.app with isScanning := true, scanProgress := 105 } }

/-- A state with one pending success timeout, scheduled at 5 ms. -/
def demoPendingTimeoutState : Sys :=
  { initSys with
    pendingTimeouts := [{ id := 2, schedAt := 5, payload := JsValue.obj [], gen := 1 }] }

/-- A state in which the pending success timeout belongs to session 1
while a later submission has made session 2 current. -/
def demoSupersededTimeoutState : Sys :=
  { initSys with
    curGen := 2, now := 10,
    pendingTimeouts := [{ id := 2, schedAt := 5, payload := JsValue.obj [], gen := 1 }] }

/-- A state in which the in-flight request belongs to session 1 while a
later submission has made session 2 current. -/
def demoSupersededNetState : Sys :=
  { initSys with curGen := 2, now := 10, pendingNet := [{ id := 1, gen := 1 }] }

/-! ## Claim theorems -/

/-- Running no events changes nothing. -/
theorem run_nil (env : KeyEnv) (s : Sys) : run env s [] = some s := rfl

/-- Unfolding one event of a run. -/
theorem run_cons (env : KeyEnv) (s : Sys) (e : Ev) (evs : List Ev) :
    run env s (e :: evs) = (step env s e).bind (fun s' => run env s' evs) := by
  simp [run, List.foldlM]

/-- C8: for every input the Number Validator rejects — whether the
library throws or the parsed number is not valid — the submission goes
straight to Failure with the validation message surfaced verbatim, the
Scanning phase is never entered (`isScanning` stays false), and no scan
is started: the scheduled intervals, the pending network requests and
the outbound-call count are all unchanged. -/
theorem C8_validation_failure_no_scan (env : KeyEnv) (s : Sys) (t : Nat)
    (msg : String) (p : ParsedNumber)
    (ht : s.now ≤ t) (hmsg : msg ≠ "") (hs : s.app.isScanning = false) :
    ((stepSubmit env s t (LibParseResult.threw msg)).map
      (fun s₁ => (s₁.app.error, s₁.app.isScanning, phase s₁.app,
                  s₁.intervals, s₁.pendingNet, s₁.networkCalls))
      = some (some msg, false, Phase.Failure,
              s.intervals, s.pendingNet, s.networkCalls)) ∧
    ((stepSubmit env s t (LibParseResult.parsed p false)).map
      (fun s₂ => (s₂.app.error, s₂.app.isScanning, phase s₂.app,
                  s₂.intervals, s₂.pendingNet, s₂.networkCalls))
      = some (some invalidNumberMsg, false, Phase.Failure,
              s.intervals, s.pendingNet, s.networkCalls)) := by
  have hnot : ¬ t < s.now := Nat.not_lt.mpr ht
  constructor
  · unfold stepSubmit
    rw [if_neg hnot]
    simp [jsMsgOr, hmsg, phase, hs]
  · unfold stepSubmit
    rw [if_neg hnot]
    simp [jsMsgOr, show invalidNumberMsg ≠ "" from by decide, phase, hs]

/-- C8 witness. -/
theorem C8_validation_failure_no_scan_witness :
    ((stepSubmit demoEnv initSys 0 (LibParseResult.threw "INVALID_COUNTRY")).map
      (fun s₁ => (s₁.app.error, s₁.app.isScanning, phase s₁.app,
                  s₁.intervals, s₁.pendingNet, s₁.networkCalls))
      = some (some "INVALID_COUNTRY", false, Phase.Failure,
              initSys.intervals, initSys.pendingNet, initSys.networkCalls)) ∧
    ((stepSubmit demoEnv initSys 0 (LibParseResult.parsed demoNumber false)).map
      (fun s₂ => (s₂.app.error, s₂.app.isScanning, phase s₂.app,
                  s₂.intervals, s₂.pendingNet, s₂.networkCalls))
      = some (some invalidNumberMsg, false, Phase.Failure,
              initSys.intervals, initSys.pendingNet, initSys.networkCalls)) :=
  C8_validation_failure_no_scan demoEnv initSys 0 "INVALID_COUNTRY" demoNumber
    (Nat.le_refl 0) (by decide) rfl

/-- C9: every submission unconditionally clears the stored report,
error and parsed-number data before anything else: after the submit
handler the report is `none` and the parsed data, error, resulting
failure-phase flag and button state are functions of the new submission
alone, independent of everything the prior session left behind; in
every failing case the submit button is enabled again for a non-empty
input (the form stays usable). -/
theorem C9_submission_clears_prior_state (env : KeyEnv) (s : Sys) (t : Nat)
    (v : LibParseResult) (phone : String)
    (ht : s.now ≤ t) (hphone : phone ≠ "") (hs : s.app.isScanning = false) :
    (stepSubmit env s t v).map
      (fun s' => (s'.app.report, s'.app.parsedData, s'.app.error,
                  decide (phase s'.app = Phase.Failure), submitDisabled s'.app phone))
      = some (none,
          (match v with
            | LibParseResult.parsed p true => some p
            | _ => none),
          (match v with
            | LibParseResult.threw msg => some (jsMsgOr msg processFailMsg)
            | LibParseResult.parsed _ true =>
              if apiKeyMissing (resolveApiKey s.app.manualKey env) then some missingKeyMsg
              else none
            | LibParseResult.parsed _ false => some invalidNumberMsg),
          (match v with
            | LibParseResult.parsed _ true => apiKeyMissing (resolveApiKey s.app.manualKey env)
            | _ => true),
          (match v with
            | LibParseResult.parsed _ true => !apiKeyMissing (resolveApiKey s.app.manualKey env)
            | _ => false)) := by
  have hnot : ¬ t < s.now := Nat.not_lt.mpr ht
  cases v with
  | threw msg =>
    unfold stepSubmit
    rw [if_neg hnot]
    simp [phase, hs, submitDisabled, hphone]
  | parsed p valid =>
    cases valid with
    | false =>
      unfold stepSubmit
      rw [if_neg hnot]
      simp [phase, hs, submitDisabled, hphone,
        jsMsgOr, show invalidNumberMsg ≠ "" from by decide]
    | true =>
      unfold stepSubmit
      rw [if_neg hnot]
      cases hb : apiKeyMissing (resolveApiKey s.app.manualKey env) with
      | true =>
        simp only [hb, if_true]
        simp [phase, submitDisabled, hphone]
      | false =>
        simp only [hb, Bool.false_eq_true, if_false]
        simp [phase, submitDisabled]

/-- C9 witness. -/
theorem C9_submission_clears_prior_state_witness :
    (stepSubmit demoEnv initSys 0 (LibParseResult.threw "TOO_SHORT")).map
      (fun s' => (s'.app.report, s'.app.parsedData, s'.app.error,
                  decide (phase s'.app = Phase.Failure), submitDisabled s'.app "+62"))
      = some (none, none, some (jsMsgOr "TOO_SHORT" processFailMsg), true, false) :=
  C9_submission_clears_prior_state demoEnv initSys 0
    (LibParseResult.threw "TOO_SHORT") "+62" (Nat.le_refl 0) (by decide) rfl

/-- C5: when no usable API key resolves from any source (manual entry,
the environment variables, the build-time default), a submission with a
valid number fails at once with the missing-credential message, the
manual-key field is revealed, and no network call is made: the pending
requests and the outbound-call count are unchanged. -/
theorem C5_missing_credential_no_network (env : KeyEnv) (s : Sys) (t : Nat)
    (p : ParsedNumber)
    (ht : s.now ≤ t)
    (hkey : apiKeyMissing (resolveApiKey s.app.manualKey env) = true) :
    (stepSubmit env s t (LibParseResult.parsed p true)).map
      (fun s' => (s'.app.error, s'.app.showKeyInput, s'.app.isScanning,
                  phase s'.app, s'.pendingNet, s'.networkCalls))
      = some (some missingKeyMsg, true, false, Phase.Failure,
              s.pendingNet, s.networkCalls) := by
  have hnot : ¬ t < s.now := Nat.not_lt.mpr ht
  unfold stepSubmit
  rw [if_neg hnot]
  simp only [hkey, if_true]
  simp [phase]

/-- C5 witness: from the initial state with no credential configured and
none entered manually, zero network calls are made. -/
theorem C5_missing_credential_no_network_witness :
    (stepSubmit emptyKeyEnv initSys 0 (LibParseResult.parsed demoNumber true)).map
      (fun s' => (s'.app.error, s'.app.showKeyInput, s'.app.isScanning,
                  phase s'.app, s'.pendingNet, s'.networkCalls))
      = some (some missingKeyMsg, true, false, Phase.Failure,
              initSys.pendingNet, initSys.networkCalls) :=
  C5_missing_credential_no_network emptyKeyEnv initSys 0 demoNumber
    (Nat.le_refl 0) (by decide)

/-- C10: a resolved API key equal to the placeholder literal
`MY_GEMINI_API_KEY`, or to the empty string, is treated as missing: the
credential check reports it missing, the submission behaves exactly as
it would with no key configured at all (the very same resulting state as
under the empty environment), and it fails with the missing-credential
message, reveals the manual-key field and makes no network call. -/
theorem C10_placeholder_key_is_missing (env : KeyEnv) (s : Sys) (t : Nat)
    (p : ParsedNumber)
    (ht : s.now ≤ t)
    (hkey : resolveApiKey s.app.manualKey env = some "MY_GEMINI_API_KEY" ∨
            resolveApiKey s.app.manualKey env = some "") :
    apiKeyMissing (resolveApiKey s.app.manualKey env) = true ∧
    stepSubmit env s t (LibParseResult.parsed p true)
      = stepSubmit emptyKeyEnv s t (LibParseResult.parsed p true) ∧
    (stepSubmit env s t (LibParseResult.parsed p true)).map
      (fun s' => (s'.app.error, s'.app.showKeyInput, s'.networkCalls))
      = some (some missingKeyMsg, true, s.networkCalls) := by
  have hnot : ¬ t < s.now := Nat.not_lt.mpr ht
  have h1 : apiKeyMissing (resolveApiKey s.app.manualKey env) = true := by
    rcases hkey with h | h <;> rw [h] <;> decide
  have h2 : apiKeyMissing (resolveApiKey s.app.manualKey emptyKeyEnv) = true := by
    by_cases hmk : s.app.manualKey = ""
    · simp [resolveApiKey, emptyKeyEnv, jsOrOpt, hmk, apiKeyMissing, jsTruthy]
    · have hres : resolveApiKey s.app.manualKey env = some s.app.manualKey := by
        simp [resolveApiKey, jsOrOpt, hmk]
      have hresE : resolveApiKey s.app.manualKey emptyKeyEnv = some s.app.manualKey := by
        simp [resolveApiKey, emptyKeyEnv, jsOrOpt, hmk]
      rcases hkey with h | h
      · rw [hres] at h
        rw [hresE, Option.some_inj.mp h]
        decide
      · rw [hres] at h
        exact absurd (Option.some_inj.mp h) hmk
  refine ⟨h1, ?_, ?_⟩
  · unfold stepSubmit
    simp only [if_neg hnot, h1, h2, if_true]
  · unfold stepSubmit
    rw [if_neg hnot]
    simp only [h1, if_true]
    simp

/-- C10 witness: an environment whose `GEMINI_API_KEY` is the literal
placeholder behaves exactly like no environment at all. -/
theorem C10_placeholder_key_is_missing_witness :
    apiKeyMissing (resolveApiKey initSys.app.manualKey ⟨some "MY_GEMINI_API_KEY", none, none, none⟩) = true ∧
    stepSubmit ⟨some "MY_GEMINI_API_KEY", none, none, none⟩ initSys 0 (LibParseResult.parsed demoNumber true)
      = stepSubmit emptyKeyEnv initSys 0 (LibParseResult.parsed demoNumber true) ∧
    (stepSubmit ⟨some "MY_GEMINI_API_KEY", none, none, none⟩ initSys 0
        (LibParseResult.parsed demoNumber true)).map
      (fun s' => (s'.app.error, s'.app.showKeyInput, s'.networkCalls))
      = some (some missingKeyMsg, true, initSys.networkCalls) :=
  C10_placeholder_key_is_missing ⟨some "MY_GEMINI_API_KEY", none, none, none⟩ initSys 0
    demoNumber (Nat.le_refl 0) (Or.inl (by decide))

/-- C4: when the primary model call fails and the fallback succeeds,
the fallback is invoked with an identical prompt (the two separately
transcribed template literals agree), exactly two outbound calls are
made, and the final report is exactly the fallback response's parsed
output; when both calls fail, two calls were made and the session ends
in Failure with the secondary's failure message surfaced and no report
set. -/
theorem C4_primary_failure_uses_fallback (env : KeyEnv) (p : ParsedNumber)
    (fmsg : String) (resp : GenResponse) (v : JsValue) (m1 m2 : String)
    (hkey : apiKeyMissing (resolveApiKey "" env) = false)
    (hv : jsonParse (jsOrDefault resp.text "\x7b\x7d") = some v)
    (hm2 : m2 ≠ "") :
    promptFlash p = promptPro p ∧
    (run env initSys
        [Ev.submit 0 (LibParseResult.parsed p true),
         Ev.netRet 5 1 (NetOutcome.fail fmsg) (NetOutcome.ok resp),
         Ev.fireTimeout 1505 2]).map
      (fun s' => (s'.networkCalls, s'.app.report, phase s'.app))
      = some (2, some v, Phase.Success) ∧
    (run env initSys
        [Ev.submit 0 (LibParseResult.parsed p true),
         Ev.netRet 5 1 (NetOutcome.fail m1) (NetOutcome.fail m2)]).map
      (fun s' => (s'.networkCalls, s'.app.error, s'.app.report, phase s'.app))
      = some (2, some m2, none, Phase.Failure) := by
  refine ⟨rfl, ?_, ?_⟩
  · simp only [run_cons, run_nil, step]
    simp only [stepSubmit, initSys, hkey, stepNetRet, stepFireTimeout]
    simp [hv, jsMsgOr, hm2, phase, scanIntervalMs, successPauseMs, List.find?]
  · simp only [run_cons, run_nil, step]
    simp only [stepSubmit, initSys, hkey, stepNetRet]
    simp [jsMsgOr, hm2, phase, List.find?]

/-- C4 witness. -/
theorem C4_primary_failure_uses_fallback_witness :
    promptFlash demoNumber = promptPro demoNumber ∧
    (run demoEnv initSys
        [Ev.submit 0 (LibParseResult.parsed demoNumber true),
         Ev.netRet 5 1 (NetOutcome.fail "quota exceeded")
           (NetOutcome.ok ⟨some "\x7b\"summary\":\"s\"\x7d"⟩),
         Ev.fireTimeout 1505 2]).map
      (fun s' => (s'.networkCalls, s'.app.report, phase s'.app))
      = some (2, some (JsValue.obj [("summary", JsValue.str "s")]), Phase.Success) ∧
    (run demoEnv initSys
        [Ev.submit 0 (LibParseResult.parsed demoNumber true),
         Ev.netRet 5 1 (NetOutcome.fail "quota exceeded") (NetOutcome.fail "network error")]).map
      (fun s' => (s'.networkCalls, s'.app.error, s'.app.report, phase s'.app))
      = some (2, some "network error", none, Phase.Failure) :=
  C4_primary_failure_uses_fallback demoEnv demoNumber "quota exceeded"
    ⟨some "\x7b\"summary\":\"s\"\x7d"⟩ (JsValue.obj [("summary", JsValue.str "s")])
    "quota exceeded" "network error" (by decide) rfl (by decide)

/-- C1 counterexample: a model response with ABSENT text produces a
Success state.  The response text defaults to the literal `\x7b\x7d`
(source line 224: `JSON.parse(response.text || ...)`), which parses to
the empty object; no field validation is performed, the success timeout
fires, and the session ends in Success with an empty report missing
every required `IntelReport` field — contradicting the claim that a
response missing required fields (in particular an empty or absent text)
must end in Failure with no report set. -/
theorem C1_counterexample :
    (run demoEnv initSys
        [Ev.submit 0 (LibParseResult.parsed demoNumber true),
         Ev.netRet 10 1 (NetOutcome.ok ⟨none⟩) (NetOutcome.fail "unused"),
         Ev.fireTimeout 1510 2]).map
      (fun s' => (phase s'.app, s'.app.report, s'.app.error))
      = some (Phase.Success, some (JsValue.obj []), none) ∧
    hasIntelReportShape (JsValue.obj []) = false := ⟨rfl, rfl⟩

/-- C1 amended: only a JSON *parse* failure of the response text ends
the session in Failure (with no report set); there is no shape check at
all — any successfully parsed JSON value, whatever fields it has, is
installed as the report and the session ends in Success, and an empty or
absent response text (defaulting to `\x7b\x7d`) therefore ends in
Success with an empty object report. -/
theorem C1_amended_parse_is_only_validation (env : KeyEnv) (p : ParsedNumber)
    (text : Option String)
    (hkey : apiKeyMissing (resolveApiKey "" env) = false) :
    (jsonParse (jsOrDefault text "\x7b\x7d") = none →
      (run env initSys
          [Ev.submit 0 (LibParseResult.parsed p true),
           Ev.netRet 5 1 (NetOutcome.ok ⟨text⟩) (NetOutcome.fail "unused")]).map
        (fun s' => (phase s'.app, s'.app.report, s'.app.error))
        = some (Phase.Failure, none, some jsonSyntaxMsg)) ∧
    (∀ v, jsonParse (jsOrDefault text "\x7b\x7d") = some v →
      (run env initSys
          [Ev.submit 0 (LibParseResult.parsed p true),
           Ev.netRet 5 1 (NetOutcome.ok ⟨text⟩) (NetOutcome.fail "unused"),
           Ev.fireTimeout 1505 2]).map
        (fun s' => (phase s'.app, s'.app.report))
        = some (Phase.Success, some v)) := by
  have hmsg : jsMsgOr jsonSyntaxMsg reportFailMsg = jsonSyntaxMsg := by decide
  constructor
  · intro hparse
    simp only [run_cons, run_nil, step]
    simp only [stepSubmit, initSys, hkey, stepNetRet]
    simp [hparse, hmsg, phase, List.find?]
  · intro v hparse
    simp only [run_cons, run_nil, step]
    simp only [stepSubmit, initSys, hkey, stepNetRet, stepFireTimeout]
    simp [hparse, phase, successPauseMs, List.find?]

/-- C1 amended witness: unparsable text fails; absent text succeeds with
the empty-object report. -/
theorem C1_amended_parse_is_only_validation_witness :
    ((run demoEnv initSys
        [Ev.submit 0 (LibParseResult.parsed demoNumber true),
         Ev.netRet 5 1 (NetOutcome.ok ⟨some "not json"⟩) (NetOutcome.fail "unused")]).map
      (fun s' => (phase s'.app, s'.app.report, s'.app.error))
      = some (Phase.Failure, none, some jsonSyntaxMsg)) ∧
    ((run demoEnv initSys
        [Ev.submit 0 (LibParseResult.parsed demoNumber true),
         Ev.netRet 5 1 (NetOutcome.ok ⟨none⟩) (NetOutcome.fail "unused"),
         Ev.fireTimeout 1505 2]).map
      (fun s' => (phase s'.app, s'.app.report))
      = some (Phase.Success, some (JsValue.obj []))) :=
  ⟨(C1_amended_parse_is_only_validation demoEnv demoNumber (some "not json") (by decide)).1 rfl,
   (C1_amended_parse_is_only_validation demoEnv demoNumber none (by decide)).2
     (JsValue.obj []) rfl⟩

/-- Helper for C2: from any start value, consecutive progress values
satisfy the overshoot-then-clamp relation when every increment lies in
`[0, B)`. -/
theorem progressFrom_chain_of_bounded (B : ℚ) :
    ∀ (incs : List ℚ) (p : ℚ), (∀ r ∈ incs, 0 ≤ r ∧ r < B) →
      List.Chain
        (fun a b => (a < 100 → a ≤ b ∧ b < 100 + B) ∧ (100 ≤ a → b = 100))
        p (progressFrom p incs) := by
  intro incs
  induction incs with
  | nil => intro p _; exact List.Chain.nil
  | cons r rs ih =>
    intro p hinc
    obtain ⟨hr0, hrB⟩ := hinc r (List.mem_cons_self r rs)
    have hrest : ∀ x ∈ rs, 0 ≤ x ∧ x < B :=
      fun x hx => hinc x (List.mem_cons_of_mem r hx)
    show List.Chain _ p ((scanTick r p).1 :: progressFrom (scanTick r p).1 rs)
    refine List.Chain.cons ?_ (ih (scanTick r p).1 hrest)
    by_cases hp : 100 ≤ p
    · refine ⟨fun h => absurd h (not_lt.mpr hp), fun _ => ?_⟩
      simp [scanTick, hp]
    · have hlt : p < 100 := not_le.mp hp
      refine ⟨fun _ => ?_, fun h => absurd h hp⟩
      simp only [scanTick, if_neg hp]
      exact ⟨le_add_of_nonneg_right hr0, add_lt_add hlt hrB⟩

/-- C2 counterexample: thirteen consecutive draws of 9 — each a legal
`Math.random()` outcome for either variant's bound — drive the progress
value to 108, which EXCEEDS 100, and the following tick snaps it back
DOWN to 100, so within one Scanning phase the value is neither bounded
by 100 nor monotonically non-decreasing. -/
theorem C2_counterexample :
    (∀ r ∈ List.replicate 13 (9 : ℚ), 0 ≤ r ∧ r < scanIncBound) ∧
    progressTrace (List.replicate 13 (9 : ℚ))
      = [9, 18, 27, 36, 45, 54, 63, 72, 81, 90, 99, 108, 100] ∧
    (100 : ℚ) < 108 := by
  refine ⟨by decide, by norm_num [progressTrace, progressFrom, scanTick, List.replicate],
    by norm_num⟩

/-- C2 amended: within one Scanning phase the progress value starts at 0
and, at each tick taken below 100, increases by a nonnegative amount; it
may overshoot 100 by strictly less than one increment bound `B` (so it
always stays below `100 + B`), and the first tick taken at or above 100
snaps the value to exactly 100 — the only possible decrease — and is
also exactly when the tick callback clears the interval; the reset to 0
at the start of each Scanning phase does hold. -/
theorem C2_amended_progress_overshoot_then_clamp (B : ℚ) (incs : List ℚ)
    (hinc : ∀ r ∈ incs, 0 ≤ r ∧ r < B) :
    List.Chain
      (fun a b => (a < 100 → a ≤ b ∧ b < 100 + B) ∧ (100 ≤ a → b = 100))
      0 (progressTrace incs) ∧
    (∀ r prev : ℚ, ((scanTick r prev).2 = false ↔ 100 ≤ prev)) := by
  refine ⟨progressFrom_chain_of_bounded B incs 0 hinc, ?_⟩
  intro r prev
  by_cases h : 100 ≤ prev <;> simp [scanTick, h]

/-- C2 amended witness, at the third variant's bound. -/
theorem C2_amended_progress_overshoot_then_clamp_witness :
    List.Chain
      (fun a b => (a < 100 → a ≤ b ∧ b < 100 + scanIncBoundV3) ∧ (100 ≤ a → b = 100))
      0 (progressTrace [14, 14]) ∧
    ((scanTick 3 105).2 = false ↔ 100 ≤ (105 : ℚ)) :=
  ⟨(C2_amended_progress_overshoot_then_clamp scanIncBoundV3 [14, 14] (by decide)).1,
   (C2_amended_progress_overshoot_then_clamp scanIncBoundV3 [14, 14] (by decide)).2 3 105⟩

/-- C3 counterexample: on the Scanning → Failure transition the
interval is NOT cleared — after both model calls fail, the session is in
Failure (`isScanning` false, error surfaced), yet the interval is still
scheduled and its next tick, 295 ms after the session ended, still fires
and moves the shared progress value from 0 to 7.  The recurring timer
outlives the session, contradicting "stopped immediately". -/
theorem C3_counterexample :
    (run demoEnv initSys
        [Ev.submit 0 (LibParseResult.parsed demoNumber true),
         Ev.netRet 5 1 (NetOutcome.fail "boom") (NetOutcome.fail "boom2"),
         Ev.tick 300 0 7]).map
      (fun s' => (phase s'.app, s'.app.isScanning, s'.intervals.length, s'.app.scanProgress))
      = some (Phase.Failure, false, 1, 7) := by
  simp only [run_cons, run_nil, step]
  simp +decide [stepSubmit, initSys, stepNetRet, stepTick, demoEnv, jsMsgOr, phase,
    scanIntervalMs, scanIncBound, scanTick, List.find?, resolveApiKey, apiKeyMissing,
    jsOrOpt, jsTruthy]

/-- C3 amended: no terminal transition clears the interval.  The
Scanning → Failure transition leaves the scheduled intervals untouched
(the timer keeps firing after the session has ended, until its own tick
observes progress ≥ 100); the only clearing mechanism is a tick whose
updater sees progress at or above 100, which clamps the value to 100 and
unschedules the interval; and the success transition likewise leaves the
interval scheduled but forces progress to 100, so the timer stops one
tick later rather than at the transition. -/
theorem C3_amended_interval_cleared_only_by_own_tick :
    (∀ (s : Sys) (t id g : Nat) (m1 m2 : String),
      s.now ≤ t → s.pendingNet = [⟨id, g⟩] → m2 ≠ "" →
      (stepNetRet s t id (NetOutcome.fail m1) (NetOutcome.fail m2)).map
        (fun s' => (s'.intervals, s'.app.isScanning, s'.app.error))
        = some (s.intervals, false, some m2)) ∧
    (∀ (s : Sys) (t : Nat) (iv : IntervalRec) (r : ℚ),
      s.intervals = [iv] → s.now ≤ t → t = iv.start + scanIntervalMs * (iv.fired + 1) →
      0 ≤ r → r < scanIncBound → 100 ≤ s.app.scanProgress →
      (stepTick s t iv.id r).map (fun s' => (s'.intervals, s'.app.scanProgress))
        = some ([], 100)) ∧
    (∀ (s : Sys) (t : Nat) (tr : TimeoutRec),
      s.pendingTimeouts = [tr] → s.now ≤ t → t = tr.schedAt + successPauseMs →
      (stepFireTimeout s t tr.id).map
        (fun s' => (s'.intervals, s'.app.scanProgress, s'.app.isScanning))
        = some (s.intervals, 100, false)) := by
  refine ⟨?_, ?_, ?_⟩
  · intro s t id g m1 m2 ht hp hm2
    have hnot : ¬ t < s.now := Nat.not_lt.mpr ht
    unfold stepNetRet
    rw [if_neg hnot, hp]
    simp [jsMsgOr, hm2, List.find?]
  · intro s t iv r hiv ht htt hr0 hrB hprog
    have hnot : ¬ t < s.now := Nat.not_lt.mpr ht
    unfold stepTick
    rw [if_neg hnot, if_neg (not_not_intro ⟨hr0, hrB⟩), hiv]
    simp [List.find?, htt, scanTick, hprog]
  · intro s t tr hpend ht htt
    have hnot : ¬ t < s.now := Nat.not_lt.mpr ht
    unfold stepFireTimeout
    rw [if_neg hnot, hpend]
    simp [List.find?, htt]

/-- C3 amended witness. -/
theorem C3_amended_interval_cleared_only_by_own_tick_witness :
    ((stepNetRet demoPendingNetState 20 1 (NetOutcome.fail "boom") (NetOutcome.fail "boom2")).map
      (fun s' => (s'.intervals, s'.app.isScanning, s'.app.error))
      = some (demoPendingNetState.intervals, false, some "boom2")) ∧
    ((stepTick demoOvershootState 1200 0 7).map
      (fun s' => (s'.intervals, s'.app.scanProgress))
      = some ([], 100)) ∧
    ((stepFireTimeout demoPendingTimeoutState 1505 2).map
      (fun s' => (s'.intervals, s'.app.scanProgress, s'.app.isScanning))
      = some (demoPendingTimeoutState.intervals, 100, false)) :=
  ⟨C3_amended_interval_cleared_only_by_own_tick.1 demoPendingNetState 20 1 1 "boom" "boom2"
      (by decide) rfl (by decide),
   C3_amended_interval_cleared_only_by_own_tick.2.1 demoOvershootState 1200
      ⟨0, 0, 3, 1⟩ 7 rfl (by decide) (by decide) (by norm_num)
      (by norm_num [scanIncBound]) (by norm_num [demoOvershootState, initSys]),
   C3_amended_interval_cleared_only_by_own_tick.2.2 demoPendingTimeoutState 1505
      ⟨2, 5, JsValue.obj [], 1⟩ rfl (by decide) (by decide)⟩

/-- C6 counterexample: a success timeout belonging to session 1 fires
after a second submission has made session 2 current (session 2's own
request still pending).  The stale completion is applied unconditionally:
it installs session 1's payload as the report and flips the phase to
Success, mutating the current session's report and phase. -/
theorem C6_counterexample :
    ((run demoEnv initSys
        [Ev.submit 0 (LibParseResult.parsed demoNumber true),
         Ev.netRet 5 1 (NetOutcome.ok ⟨some "\x7b\"summary\":\"a\"\x7d"⟩)
           (NetOutcome.fail "unused"),
         Ev.submit 10 (LibParseResult.parsed demoNumber2 true)]).map
      (fun s' => (s'.curGen, s'.pendingTimeouts.map (fun tr => (tr.id, tr.gen)),
                  s'.app.report, s'.app.isScanning))
      = some (2, [(2, 1)], none, true)) ∧
    ((run demoEnv initSys
        [Ev.submit 0 (LibParseResult.parsed demoNumber true),
         Ev.netRet 5 1 (NetOutcome.ok ⟨some "\x7b\"summary\":\"a\"\x7d"⟩)
           (NetOutcome.fail "unused"),
         Ev.submit 10 (LibParseResult.parsed demoNumber2 true),
         Ev.fireTimeout 1505 2]).map
      (fun s' => (s'.curGen, s'.app.report, phase s'.app, s'.app.parsedData,
                  s'.pendingNet.map (fun nr => nr.gen)))
      = some (2, some (JsValue.obj [("summary", JsValue.str "a")]), Phase.Success,
              some demoNumber2, [2])) := ⟨rfl, rfl⟩

/-- C6 amended: asynchronous completions carry no session identity and
are applied unconditionally — a success timeout or a request rejection
belonging to a SUPERSEDED session (its generation strictly below the
current one) still mutates the current session's report, error, phase
and progress exactly as a current-session completion would. -/
theorem C6_amended_stale_completion_mutates_current (s : Sys) (t : Nat) (tr : TimeoutRec)
    (_hsup : tr.gen < s.curGen) (hpend : s.pendingTimeouts = [tr])
    (ht : s.now ≤ t) (htt : t = tr.schedAt + successPauseMs) :
    ((stepFireTimeout s t tr.id).map
      (fun s' => (s'.app.report, s'.app.isScanning, s'.app.scanProgress))
      = some (some tr.payload, false, 100)) ∧
    (∀ (s₂ : Sys) (t₂ : Nat) (nr : NetRec) (m1 m2 : String),
      nr.gen < s₂.curGen → s₂.pendingNet = [nr] → s₂.now ≤ t₂ → m2 ≠ "" →
      (stepNetRet s₂ t₂ nr.id (NetOutcome.fail m1) (NetOutcome.fail m2)).map
        (fun s' => (s'.app.error, s'.app.isScanning))
        = some (some m2, false)) := by
  constructor
  · have hnot : ¬ t < s.now := Nat.not_lt.mpr ht
    unfold stepFireTimeout
    rw [if_neg hnot, hpend]
    simp [List.find?, htt]
  · intro s₂ t₂ nr m1 m2 _ hp ht₂ hm2
    have hnot : ¬ t₂ < s₂.now := Nat.not_lt.mpr ht₂
    unfold stepNetRet
    rw [if_neg hnot, hp]
    simp [jsMsgOr, hm2, List.find?]

/-- C6 amended witness. -/
theorem C6_amended_stale_completion_mutates_current_witness :
    ((stepFireTimeout demoSupersededTimeoutState 1505 2).map
      (fun s' => (s'.app.report, s'.app.isScanning, s'.app.scanProgress))
      = some (some (JsValue.obj []), false, 100)) ∧
    ((stepNetRet demoSupersededNetState 20 1 (NetOutcome.fail "primary down")
        (NetOutcome.fail "fallback down")).map
      (fun s' => (s'.app.error, s'.app.isScanning))
      = some (some "fallback down", false)) :=
  ⟨(C6_amended_stale_completion_mutates_current demoSupersededTimeoutState 1505
      ⟨2, 5, JsValue.obj [], 1⟩ (by decide) rfl (by decide) (by decide)).1,
   (C6_amended_stale_completion_mutates_current demoSupersededTimeoutState 1505
      ⟨2, 5, JsValue.obj [], 1⟩ (by decide) rfl (by decide) (by decide)).2
     demoSupersededNetState 20 ⟨1, 1⟩ "primary down" "fallback down"
     (by decide) rfl (by decide) (by decide)⟩

/-- C7 counterexample: the success pause is NOT conditioned on the
progress value reaching completion.  The network responds at 350 ms; the
success timeout is scheduled at that moment and fires at exactly
350 + 1500 = 1850 ms, even though the progress value — after all six
interval ticks due by then, each drawing 5 — has only reached 30.  The
transition therefore did not wait for the progress to reach 100; the
handler forcibly sets 100 at the transition instant. -/
theorem C7_counterexample :
    ((run demoEnv initSys
        [Ev.submit 0 (LibParseResult.parsed demoNumber true),
         Ev.tick 300 0 5,
         Ev.netRet 350 1 (NetOutcome.ok ⟨some "\x7b\x7d"⟩) (NetOutcome.fail "unused"),
         Ev.tick 600 0 5, Ev.tick 900 0 5, Ev.tick 1200 0 5,
         Ev.tick 1500 0 5, Ev.tick 1800 0 5]).map
      (fun s' => (s'.app.scanProgress, s'.app.report, s'.app.isScanning,
                  s'.pendingTimeouts.map (fun tr => (tr.schedAt, tr.gen))))
      = some (30, none, true, [(350, 1)])) ∧
    ((run demoEnv initSys
        [Ev.submit 0 (LibParseResult.parsed demoNumber true),
         Ev.tick 300 0 5,
         Ev.netRet 350 1 (NetOutcome.ok ⟨some "\x7b\x7d"⟩) (NetOutcome.fail "unused"),
         Ev.tick 600 0 5, Ev.tick 900 0 5, Ev.tick 1200 0 5,
         Ev.tick 1500 0 5, Ev.tick 1800 0 5,
         Ev.fireTimeout 1850 2]).map
      (fun s' => (phase s'.app, s'.app.report, s'.app.scanProgress))
      = some (Phase.Success, some (JsValue.obj []), 100)) ∧
    1850 = 350 + successPauseMs ∧ (30 : ℚ) < 100 := by
  have hv : jsonParse (jsOrDefault (some "\x7b\x7d") "\x7b\x7d") = some (JsValue.obj []) := rfl
  have a1 : (0 : ℚ) + 5 = 5 := by norm_num
  have a2 : (5 : ℚ) + 5 = 10 := by norm_num
  have a3 : (10 : ℚ) + 5 = 15 := by norm_num
  have a4 : (15 : ℚ) + 5 = 20 := by norm_num
  have a5 : (20 : ℚ) + 5 = 25 := by norm_num
  have a6 : (25 : ℚ) + 5 = 30 := by norm_num
  refine ⟨?_, ?_, by norm_num [successPauseMs], by norm_num⟩
  · simp only [run_cons, run_nil, step]
    simp +decide [stepSubmit, initSys, stepNetRet, stepTick, demoEnv, scanIntervalMs,
      scanIncBound, scanTick, List.find?, resolveApiKey, apiKeyMissing, jsOrOpt, jsTruthy,
      hv, a1, a2, a3, a4, a5, a6]
  · simp only [run_cons, run_nil, step]
    simp +decide [stepSubmit, initSys, stepNetRet, stepTick, stepFireTimeout, demoEnv,
      scanIntervalMs, scanIncBound, scanTick, successPauseMs, phase, List.find?,
      resolveApiKey, apiKeyMissing, jsOrOpt, jsTruthy, hv, a1, a2, a3, a4, a5, a6]

/-- C7 amended: on success the transition is scheduled a fixed
`successPauseMs` (1500 ms; 2000 ms in the third variant — both within
the spec's "about 1.5–2 seconds") after the NETWORK RESPONSE ALONE: the
timeout is created at the response's own time with the state's progress
value playing no role, a scheduled timeout can fire only exactly that
pause later, and its handler simultaneously installs the report and
forces the progress to 100 — so the rendered Success state always shows
a full indicator, but the pause is not conditioned on the progress value
having reached completion. -/
theorem C7_amended_pause_follows_network_response_only :
    (∀ (s : Sys) (t id g : Nat) (resp : GenResponse) (pro : NetOutcome) (v : JsValue),
      s.now ≤ t → s.pendingNet = [⟨id, g⟩] →
      jsonParse (jsOrDefault resp.text "\x7b\x7d") = some v →
      (stepNetRet s t id (NetOutcome.ok resp) pro).map
        (fun s' => (s'.pendingTimeouts, s'.app.scanProgress, s'.app.report,
                    s'.app.isScanning))
        = some (s.pendingTimeouts ++ [⟨s.nextId, t, v, g⟩], s.app.scanProgress,
                s.app.report, s.app.isScanning)) ∧
    (∀ (s : Sys) (t : Nat) (tr : TimeoutRec), s.pendingTimeouts = [tr] →
      (stepFireTimeout s t tr.id).isSome = true → t = tr.schedAt + successPauseMs) ∧
    (∀ (s : Sys) (t : Nat) (tr : TimeoutRec),
      s.pendingTimeouts = [tr] → s.now ≤ t → t = tr.schedAt + successPauseMs →
      (stepFireTimeout s t tr.id).map
        (fun s' => (s'.app.report, s'.app.scanProgress))
        = some (some tr.payload, 100)) ∧
    successPauseMs = 1500 ∧ successPauseMsV3 = 2000 := by
  refine ⟨?_, ?_, ?_, rfl, rfl⟩
  · intro s t id g resp pro v ht hp hv
    have hnot : ¬ t < s.now := Nat.not_lt.mpr ht
    unfold stepNetRet
    rw [if_neg hnot, hp]
    simp [List.find?, hv]
  · intro s t tr hpend h
    unfold stepFireTimeout at h
    rw [hpend] at h
    simp only [List.find?] at h
    by_cases h1 : t < s.now
    · simp [h1] at h
    · by_cases h2 : t = tr.schedAt + successPauseMs
      · exact h2
      · simp [h1, h2] at h
  · intro s t tr hpend ht htt
    have hnot : ¬ t < s.now := Nat.not_lt.mpr ht
    unfold stepFireTimeout
    rw [if_neg hnot, hpend]
    simp [List.find?, htt]

/-- C7 amended witness. -/
theorem C7_amended_pause_follows_network_response_only_witness :
    ((stepNetRet demoPendingNetState 20 1 (NetOutcome.ok ⟨some "\x7b\x7d"⟩)
        (NetOutcome.fail "unused")).map
      (fun s' => (s'.pendingTimeouts, s'.app.scanProgress, s'.app.report,
                  s'.app.isScanning))
      = some (demoPendingNetState.pendingTimeouts
                ++ [⟨demoPendingNetState.nextId, 20, JsValue.obj [], 1⟩],
              demoPendingNetState.app.scanProgress, demoPendingNetState.app.report,
              demoPendingNetState.app.isScanning)) ∧
    (1505 = (5 : Nat) + successPauseMs) ∧
    ((stepFireTimeout demoPendingTimeoutState 1505 2).map
      (fun s' => (s'.app.report, s'.app.scanProgress))
      = some (some (JsValue.obj []), 100)) :=
  ⟨C7_amended_pause_follows_network_response_only.1 demoPendingNetState 20 1 1
      ⟨some "\x7b\x7d"⟩ (NetOutcome.fail "unused") (JsValue.obj []) (by decide) rfl rfl,
   C7_amended_pause_follows_network_response_only.2.1 demoPendingTimeoutState 1505
      ⟨2, 5, JsValue.obj [], 1⟩ rfl rfl,
   C7_amended_pause_follows_network_response_only.2.2.1 demoPendingTimeoutState 1505
      ⟨2, 5, JsValue.obj [], 1⟩ rfl (by decide) (by decide)⟩

end Intel
